import Mathlib

/-!
Verification development for the `runkeeper` client (`src/runkeeper.py`).

The repository is a synchronous web-scraping client.  We shallowly embed its
two classes (`Runkeeper`, `Activity`) as pure Lean functions over explicit
"world" records: a world fixes the outcome of every network request the code
could issue (transport failure, or the response body already parsed to the
shape the code inspects).  Python exceptions are modelled by an error type
threaded through `Except`/`Option` results; Python truthiness (`if not x`)
is modelled by an explicit `truthy` function on a Python-value type.
Network traffic is observed through explicit request counters, so caching
claims become statements about those counters.
-/

/-- Timestamp produced by `datetime.strptime` (naive: no timezone is kept). -/
structure DT where
  year : Nat
  month : Nat
  day : Nat
  hour : Nat
  minute : Nat
  second : Nat
deriving DecidableEq, Repr

mutual
/-- Python values as they appear in this client: `None`, booleans, integers,
strings, JSON lists, JSON objects, and `datetime` objects.  Lists and dicts
are their own inductives because the three types are mutually recursive. -/
inductive PyVal where
  | vNone
  | vBool (b : Bool)
  | vInt (n : Int)
  | vStr (s : String)
  | vList (xs : PyList)
  | vDict (xs : PyDict)
  | vDatetime (d : DT)

/-- A Python list of `PyVal`s. -/
inductive PyList where
  | nil
  | cons (v : PyVal) (rest : PyList)

/-- A Python dict with string keys (keys are unique in Python, so
first-match lookup agrees with dict lookup). -/
inductive PyDict where
  | nil
  | cons (k : String) (v : PyVal) (rest : PyDict)
end

deriving instance DecidableEq for PyVal, PyList, PyDict

/-- Build a `PyList` from a Lean list. -/
def PyList.ofList : List PyVal → PyList
  | [] => .nil
  | v :: rest => .cons v (PyList.ofList rest)

/-- View a `PyList` as a Lean list. -/
def PyList.toList : PyList → List PyVal
  | .nil => []
  | .cons v rest => v :: rest.toList

/-- Build a `PyDict` from a Lean association list. -/
def PyDict.ofList : List (String × PyVal) → PyDict
  | [] => .nil
  | (k, v) :: rest => .cons k v (PyDict.ofList rest)

/-- Is the list empty. -/
def PyList.isEmpty : PyList → Bool
  | .nil => true
  | .cons _ _ => false

/-- Is the dict empty. -/
def PyDict.isEmpty : PyDict → Bool
  | .nil => true
  | .cons _ _ _ => false

/-- First-match lookup, i.e. Python `d[key]` when the key is present. -/
def PyDict.lookup : PyDict → String → Option PyVal
  | .nil, _ => none
  | .cons k v rest, key => if k = key then some v else rest.lookup key

/-- Python truthiness: `None`, `False`, `0`, empty string/list/dict are falsy;
`datetime` objects are always truthy (the class defines no `__bool__`). -/
def PyVal.truthy : PyVal → Bool
  | .vNone => false
  | .vBool b => b
  | .vInt n => n != 0
  | .vStr s => !s.isEmpty
  | .vList xs => !xs.isEmpty
  | .vDict xs => !xs.isEmpty
  | .vDatetime _ => true

/-- Python `dict.get(key)`: the value if present, else `None`.  Never raises. -/
def pyGetD (xs : PyDict) (key : String) : PyVal :=
  (xs.lookup key).getD .vNone

/-- Exceptions that can escape the client's methods.  The first six are the
classes imported from `runkeeperExceptions` (the source spells the
authentication error `InvalidAuhentication`); the `py*` constructors are raw
Python exceptions that the code does not catch; `rawRequestsError` is a
transport exception from the `requests` library escaping unwrapped. -/
inductive RKErr where
  | endpointConnectionError
  | invalidAuhentication
  | profileNotFound
  | noActivitiesFound
  | noActivityInMonth
  | invalidActivityId
  | pyAttributeError
  | pyKeyError
  | pyTypeError
  | pyValueError
  | rawRequestsError
deriving DecidableEq, Repr

/- ###  String utilities mirroring the Python string methods used  ### -/

/-- Split a character list at every occurrence of `sep`; mirrors Python
`str.split(sep)` for a one-character separator: `"a//b"` gives
`["a", "", "b"]` and the result is never empty. -/
def splitOnCharList (sep : Char) : List Char → List (List Char)
  | [] => [[]]
  | c :: rest =>
    let r := splitOnCharList sep rest
    if c = sep then [] :: r
    else
      match r with
      | [] => [[c]]
      | h :: t => (c :: h) :: t

/-- Python `s.split(sep)` for a one-character separator. -/
def pySplit (sep : Char) (s : String) : List String :=
  (splitOnCharList sep s.data).map (fun cs => ⟨cs⟩)

/-- Python `s.rstrip()`: drop trailing whitespace. -/
def pyRstrip (s : String) : String :=
  ⟨(s.data.reverse.dropWhile Char.isWhitespace).reverse⟩

/-- Python `''.join(xs)`. -/
def pyJoin (xs : List String) : String :=
  ⟨(xs.map String.data).flatten⟩

/-- Digit-string to number; `none` on the empty string or any non-digit. -/
def digitsToNat : List Char → Option Nat
  | [] => none
  | cs =>
    if cs.all Char.isDigit then
      some (cs.foldl (fun acc c => 10 * acc + (c.toNat - 48)) 0)
    else none

/-- Numeric parse of a string mirroring the digit groups `strptime` accepts. -/
def pyToNat (s : String) : Option Nat := digitsToNat s.data

/-- ASCII lower-casing of one character. -/
def lowerChar (c : Char) : Char :=
  if 'A' ≤ c ∧ c ≤ 'Z' then Char.ofNat (c.toNat + 32) else c

/-- ASCII lower-casing of a string (CPython `strptime` name matching is
case-insensitive). -/
def lowerStr (s : String) : String := ⟨s.data.map lowerChar⟩

/- ###  CPython `datetime.strptime` for the fixed pattern used at line 209  ### -/

/-- Split at whitespace, dropping empty pieces (the literal blanks in the
`strptime` format match runs of whitespace in the input). -/
def splitWhitespace (s : String) : List String :=
  ((splitOnCharList ' ' s.data).map (fun cs => (⟨cs⟩ : String))).filter
    (fun t => !t.isEmpty)

/-- Month number for a lower-cased English month abbreviation, as the C-locale
tables of CPython `strptime` hold them. -/
def monthNum : String → Option Nat
  | "jan" => some 1
  | "feb" => some 2
  | "mar" => some 3
  | "apr" => some 4
  | "may" => some 5
  | "jun" => some 6
  | "jul" => some 7
  | "aug" => some 8
  | "sep" => some 9
  | "oct" => some 10
  | "nov" => some 11
  | "dec" => some 12
  | _ => none

/-- Lower-cased English weekday abbreviations (C locale).  CPython parses the
`%a` field but, since the full date is also given, never uses it: an
inconsistent weekday is accepted. -/
def weekdayAbbrs : List String :=
  ["mon", "tue", "wed", "thu", "fri", "sat", "sun"]

/-- Accepted `%Z` names: CPython accepts `UTC`, `GMT` and the local zone
names; we model the two portable ones (matching is case-insensitive). -/
def tzNameOk (s : String) : Bool :=
  lowerStr s = "utc" || lowerStr s = "gmt"

/-- `datetime.strptime(s, p)` for the fixed pattern
`%a %b %d %H:%M:%S %Z %Y` of `get_activity_datetime` (line 209): weekday
abbreviation, month abbreviation, 1-2 digit day, `HH:MM:SS`, zone name,
4-digit year.  `none` models the `ValueError` CPython raises on a
mismatch.  The parsed weekday and zone are discarded: the result is a naive
timestamp built from year, month, day and time of day. -/
def strptimeFixed (s : String) : Option DT :=
  match splitWhitespace s with
  | [wd, mon, dd, hms, tz, yy] =>
    if weekdayAbbrs.contains (lowerStr wd) && tzNameOk tz then
      match monthNum (lowerStr mon), pyToNat dd, pyToNat yy, pySplit ':' hms with
      | some m, some d, some y, [hh, mm, ss] =>
        match pyToNat hh, pyToNat mm, pyToNat ss with
        | some h, some mi, some sec =>
          if dd.length ≤ 2 && 1 ≤ d && d ≤ 31 && hh.length ≤ 2 && h ≤ 23 &&
             mm.length ≤ 2 && mi ≤ 59 && ss.length ≤ 2 && sec ≤ 59 &&
             yy.length = 4 then
            some ⟨y, m, d, h, mi, sec⟩
          else none
        | _, _, _ => none
      | _, _, _, _ => none
    else none
  | _ => none

/- ###  Runkeeper.__authenticate and Runkeeper.__get_hidden_elements  ### -/

/-- Python dict update `d[k] = v`: overwrite the key if present, else append
(insertion order is preserved, matching CPython). -/
def dictSet (xs : List (String × String)) (key val : String) :
    List (String × String) :=
  match xs with
  | [] => [(key, val)]
  | (k, v) :: rest =>
    if k = key then (k, val) :: rest else (k, v) :: dictSet rest key val

/-- First-match lookup in a string association list (cookie jars and form
data; keys are unique). -/
def lookupPair (xs : List (String × String)) (key : String) : Option String :=
  match xs with
  | [] => none
  | (k, v) :: rest => if k = key then some v else lookupPair rest key

/-- Network oracle for the login handshake.  `loginGet` is the outcome of the
GET on the login page: `none` is a transport failure, `some hidden` gives the
(name, value) pairs of the hidden inputs that the BeautifulSoup scan of the
page extracts.  `loginPost` maps the submitted form data to the outcome of
the POST: `none` is a transport failure, `some cookies` the cookies set by
the response. -/
structure AuthWorld where
  loginGet : Option (List (String × String))
  loginPost : List (String × String) → Option (List (String × String))

/-- `Runkeeper.__get_hidden_elements` (lines 44-56).  The GET at line 50 is
NOT wrapped in try/except, so a transport failure escapes as the raw
`requests` exception, not as `EndpointConnectionError`. -/
def get_hidden_elements (w : AuthWorld) : Except RKErr (List (String × String)) :=
  match w.loginGet with
  | none => .error .rawRequestsError
  | some hidden => .ok hidden

/-- `Runkeeper.__authenticate` (lines 25-42), run during `__init__`.  The
hidden fields are fetched, email and password are written into the dict, the
form is POSTed (wrapped: transport failure becomes
`EndpointConnectionError`), and the response must carry a truthy `checker`
cookie — `if not cookies.get(...)` treats both an absent cookie and an
empty-valued one as failure (`InvalidAuhentication`, the source's spelling). -/
def authenticate (email password : String) (w : AuthWorld) : Except RKErr Unit :=
  match get_hidden_elements w with
  | .error e => .error e
  | .ok hidden =>
    let data := dictSet (dictSet hidden "email" email) "password" password
    match w.loginPost data with
    | none => .error .endpointConnectionError
    | some cookies =>
      if ((lookupPair cookies "checker").getD "").isEmpty then
        .error .invalidAuhentication
      else .ok ()

/- ###  Runkeeper.profile_username (lines 58-79)  ### -/

/-- Does the list of characters start with `/user/` followed by an ASCII
letter (the left alternative of the regex at line 72)? -/
def startsWithUserLetter : List Char → Bool
  | '/' :: 'u' :: 's' :: 'e' :: 'r' :: '/' :: c :: _ => c.isAlpha
  | _ => false

/-- Does the list of characters start with an ASCII digit followed by
`/profile` (the right alternative of the regex at line 72)? -/
def startsWithDigitProfile : List Char → Bool
  | c :: '/' :: 'p' :: 'r' :: 'o' :: 'f' :: 'i' :: 'l' :: 'e' :: _ => c.isDigit
  | _ => false

/-- Regex search of `/user/[a-zA-Z]|[0-9]/profile` in a string: the
alternation binds the whole pattern, so a match is an occurrence of
`/user/<letter>` anywhere or of `<digit>/profile` anywhere. -/
def searchProfilePattern : List Char → Bool
  | [] => false
  | c :: rest =>
    startsWithUserLetter (c :: rest) || startsWithDigitProfile (c :: rest) ||
      searchProfilePattern rest

/-- `href` attribute matches the profile-link pattern of line 72. -/
def matchesProfilePattern (href : String) : Bool :=
  searchProfilePattern href.data

/-- Network oracle for the home page: `none` is a transport failure,
`some anchors` the `href` attributes of the page's `<a>` tags in document
order (`soup.find` takes the first whose `href` matches the pattern). -/
structure HomeWorld where
  homeGet : Option (List String)

/-- Outcome of one read of the `profile_username` property: the exception (if
one escaped), the returned string (meaningful when `err = none`), the new
value of the `__profile_username` attribute, and how many network requests
the read issued. -/
structure ProfileReadResult where
  err : Option RKErr
  val : String
  cached : String
  nRequests : Nat
deriving DecidableEq, Repr

/-- `Runkeeper.profile_username` (lines 58-79) as a function of the home-page
oracle and the current `__profile_username` attribute (initialised to `""` in
`__init__`).  The guard is Python truthiness on the cached string; a
transport failure on the GET becomes `EndpointConnectionError`; when no
anchor matches, `soup.find` returns `None` and `None.attrs` raises
`AttributeError` — the `except IndexError` clause does not catch it; when the
matched `href` splits into fewer than three `/`-separated parts, the `[2]`
index raises `IndexError`, caught and re-raised as `ProfileNotFound`. -/
def profile_username (w : HomeWorld) (cached : String) : ProfileReadResult :=
  if cached.isEmpty then
    match w.homeGet with
    | none => ⟨some .endpointConnectionError, "", cached, 1⟩
    | some anchors =>
      match anchors.find? matchesProfilePattern with
      | none => ⟨some .pyAttributeError, "", cached, 1⟩
      | some href =>
        match (pySplit '/' href)[2]? with
        | none => ⟨some .profileNotFound, "", cached, 1⟩
        | some seg => ⟨none, seg, seg, 1⟩
  else ⟨none, cached, cached, 0⟩

/- ###  Activity.__init__ and Runkeeper.get_activities_month  ### -/

/-- The summary fields an `Activity` copies out of one listing entry at
construction (lines 116-134): `info.get(...)` for each, so a missing key
yields `None`.  The stored back-reference to the `Runkeeper` instance and
its session are context, not data, and live in the worlds instead. -/
structure ActivitySummary where
  username : PyVal
  distance : PyVal
  activity_id : PyVal
  distance_units : PyVal
  elapsed_time : PyVal
  live : PyVal
  caption : PyVal
  activity_type : PyVal
deriving DecidableEq

/-- `Activity.__init__` (lines 116-134) applied to one listing entry.  When
`info` is a dict every `info.get(key)` succeeds (with `None` for missing
keys) — `dict.get` never raises `KeyError`, so the `except KeyError` clause
is unreachable for dict input; when `info` is not a dict the first `.get`
raises an uncaught `AttributeError`. -/
def Activity_init (info : PyVal) : Except RKErr ActivitySummary :=
  match info with
  | .vDict xs =>
    .ok ⟨pyGetD xs "username", pyGetD xs "distance", pyGetD xs "activity_id",
         pyGetD xs "distanceUnits", pyGetD xs "elapsedTime", pyGetD xs "live",
         pyGetD xs "mainText", pyGetD xs "type"⟩
  | _ => .error .pyAttributeError

/-- Construct an `Activity` from each listing entry in order (the loop at
lines 108-109 plus the comprehension at line 111); the first failing
construction propagates its exception. -/
def buildActivities : List PyVal → Except RKErr (List ActivitySummary)
  | [] => .ok []
  | e :: rest =>
    match Activity_init e with
    | .error er => .error er
    | .ok s =>
      match buildActivities rest with
      | .error er => .error er
      | .ok ss => .ok (s :: ss)

/-- Python subscript `v[key]` with a string key: dict lookup (`KeyError` when
absent); on any non-dict value a string subscript raises `TypeError`
(lists reject string indices, scalars are not subscriptable). -/
def pyIndex (v : PyVal) (key : String) : Except RKErr PyVal :=
  match v with
  | .vDict xs =>
    match xs.lookup key with
    | some w => .ok w
    | none => .error .pyKeyError
  | _ => .error .pyTypeError

/-- Keys of a dict, in order, as Python string values. -/
def pyDictKeys : PyDict → List PyVal
  | .nil => []
  | .cons k _ rest => .vStr k :: pyDictKeys rest

/-- Python iteration `for x in v`: lists yield their elements, dicts their
keys, strings their characters; other values raise `TypeError`. -/
def pyIter (v : PyVal) : Except RKErr (List PyVal) :=
  match v with
  | .vList xs => .ok xs.toList
  | .vDict xs => .ok (pyDictKeys xs)
  | .vStr s => .ok (s.data.map (fun c => .vStr ⟨[c]⟩))
  | _ => .error .pyTypeError

/-- Network oracle for one `get_activities_month` call: the home-page oracle
feeding the `profile_username` read at line 92, and the listing response —
`none` is a transport failure, `some none` a body `json.loads` rejects,
`some (some v)` a body parsed to the JSON value `v`. -/
structure MonthWorld where
  home : HomeWorld
  listingResp : Option (Option PyVal)

/-- Outcome of one `get_activities_month` call: escaped exception (if any),
returned activity records (meaningful when `err = none`), the
`__profile_username` attribute afterwards, and the number of home-page and
listing requests issued. -/
structure MonthResult where
  err : Option RKErr
  activities : List ActivitySummary
  cached : String
  nHome : Nat
  nListing : Nat
deriving DecidableEq

/-- The `try: json.loads(text)['activities'] except: NoActivitiesFound` step
(lines 100-103): a bare `except`, so an unparseable body, a non-dict JSON
value (whose string subscript raises `TypeError`) and a missing
`activities` key all become `NoActivitiesFound`. -/
def extractActivities (body : Option PyVal) : Except RKErr PyVal :=
  match body with
  | none => .error .noActivitiesFound
  | some v =>
    match v with
    | .vDict xs =>
      match xs.lookup "activities" with
      | some acts => .ok acts
      | none => .error .noActivitiesFound
    | _ => .error .noActivitiesFound

/-- `Runkeeper.get_activities_month` (lines 81-111) as a function of the
oracle, the current `__profile_username` attribute, and the already-resolved
`month` and `year` strings (line 89 defaults `year` to the current year; we
take the resolved string).  Steps: build the payload — which reads the
`profile_username` property (line 92), possibly fetching the home page —
then GET the listing (transport failure wrapped as
`EndpointConnectionError`), extract the `activities` value (bare except into
`NoActivitiesFound`), test Python truthiness of that whole value for
`NoActivityInMonth` (line 105), and only then subscript with `year` and
`month` (line 108, unguarded: `KeyError`/`TypeError` escape raw) and build
one `Activity` per entry in order. -/
def get_activities_month (w : MonthWorld) (cached : String)
    (month year : String) : MonthResult :=
  let pr := profile_username w.home cached
  match pr.err with
  | some e => ⟨some e, [], pr.cached, pr.nRequests, 0⟩
  | none =>
    match w.listingResp with
    | none => ⟨some .endpointConnectionError, [], pr.cached, pr.nRequests, 1⟩
    | some body =>
      match extractActivities body with
      | .error e => ⟨some e, [], pr.cached, pr.nRequests, 1⟩
      | .ok acts =>
        if !acts.truthy then
          ⟨some .noActivityInMonth, [], pr.cached, pr.nRequests, 1⟩
        else
          match pyIndex acts year with
          | .error e => ⟨some e, [], pr.cached, pr.nRequests, 1⟩
          | .ok byYear =>
            match pyIndex byYear month with
            | .error e => ⟨some e, [], pr.cached, pr.nRequests, 1⟩
            | .ok entries =>
              match pyIter entries with
              | .error e => ⟨some e, [], pr.cached, pr.nRequests, 1⟩
              | .ok l =>
                match buildActivities l with
                | .error e => ⟨some e, [], pr.cached, pr.nRequests, 1⟩
                | .ok summaries =>
                  ⟨none, summaries, pr.cached, pr.nRequests, 1⟩

/- ###  Activity: detail fetch, datetime fetch, lazy population  ### -/

/-- Network oracle for one `Activity`'s detail traffic.  `detailResp` is the
point-data endpoint: `none` a transport failure, `some none` a body that is
not valid JSON, `some (some v)` a body parsed to `v`.  `profileResp` is the
outcome of reading `self._runkeeper.profile_username` while building the
activity-page URL (line 198) — for records produced by
`get_activities_month` the identifier is already cached, but a fresh or
failing read is possible and its exception escapes.  `pageResp` is the
activity page: `none` a transport failure, `some none` a page without the
subtitle `<div>` (so `soup.find` gives `None` and iterating it raises
`TypeError`), `some (some frags)` the text fragments under that div. -/
structure ActWorld where
  detailResp : Option (Option PyVal)
  profileResp : Except RKErr String
  pageResp : Option (Option (List String))

/-- `Activity.get_activity_details` (lines 148-166): transport failure is
wrapped as `EndpointConnectionError`; a body `json.loads` rejects raises
`InvalidActivityId`; otherwise the parsed JSON value is returned as-is. -/
def get_activity_details (w : ActWorld) : Except RKErr PyVal :=
  match w.detailResp with
  | none => .error .endpointConnectionError
  | some none => .error .invalidActivityId
  | some (some v) => .ok v

/-- The list comprehension and join of lines 207-208: each text fragment is
split at `-`, the part before the first `-` keeps, trailing whitespace is
stripped, and the pieces are concatenated. -/
def subtitleJoin (frags : List String) : String :=
  pyJoin (frags.map (fun f => pyRstrip (((pySplit '-' f).headD ""))))

/-- `Activity.get_activity_datetime` (lines 192-211): the URL interpolation
reads `profile_username` (any exception it raises escapes here); the GET is
wrapped (`EndpointConnectionError`); a missing subtitle div makes the
`for ... in form` comprehension iterate `None` (`TypeError`); otherwise the
joined fragment text is parsed with the fixed `strptime` pattern, whose
mismatch raises an uncaught `ValueError`. -/
def get_activity_datetime (w : ActWorld) : Except RKErr DT :=
  match w.profileResp with
  | .error e => .error e
  | .ok _ =>
    match w.pageResp with
    | none => .error .endpointConnectionError
    | some none => .error .pyTypeError
    | some (some frags) =>
      match strptimeFixed (subtitleJoin frags) with
      | none => .error .pyValueError
      | some d => .ok d

/-- The five lazily populated attributes of an `Activity` (lines 128-132),
all initialised to `None`. -/
structure ActCache where
  statsCalories : PyVal
  statsElevation : PyVal
  statsPace : PyVal
  statsSpeed : PyVal
  dt : PyVal
deriving DecidableEq

/-- A fresh record's cache: all five attributes `None`. -/
def freshCache : ActCache := ⟨.vNone, .vNone, .vNone, .vNone, .vNone⟩

/-- Outcome of one `_populate` call: escaped exception (if any), the cache
attributes afterwards, and the number of calls made to
`get_activity_details` and `get_activity_datetime`. -/
structure PopulateResult where
  err : Option RKErr
  cache : ActCache
  nDetails : Nat
  nDatetime : Nat
deriving DecidableEq

/-- `Activity._populate` (lines 137-146), statement by statement: fetch the
detail blob (on failure nothing was assigned); fetch and assign
`__datetime` (on failure the right-hand side raised first, so nothing was
assigned); then the four `activity_details.get(...)` assignments — when the
detail JSON is a dict they all succeed, but when it is valid JSON of any
other shape the first `.get` raises `AttributeError` with `__datetime`
already assigned, leaving the record partially populated. -/
def Activity_populate (w : ActWorld) (c : ActCache) : PopulateResult :=
  match get_activity_details w with
  | .error e => ⟨some e, c, 1, 0⟩
  | .ok d =>
    match get_activity_datetime w with
    | .error e => ⟨some e, c, 1, 1⟩
    | .ok t =>
      let c1 : ActCache := { c with dt := .vDatetime t }
      match d with
      | .vDict xs =>
        ⟨none,
         { c1 with
           statsCalories := pyGetD xs "statsCalories",
           statsElevation := pyGetD xs "statsElevation",
           statsPace := pyGetD xs "statsPace",
           statsSpeed := pyGetD xs "statsSpeed" }, 1, 1⟩
      | _ => ⟨some .pyAttributeError, c1, 1, 1⟩

/-- Outcome of reading one lazy property: escaped exception (if any), the
returned value (meaningful when `err = none`), the cache afterwards, and the
fetch counters. -/
structure AccessResult where
  err : Option RKErr
  val : PyVal
  cache : ActCache
  nDetails : Nat
  nDatetime : Nat
deriving DecidableEq

/-- Shared shape of the five property bodies (lines 168-190 and 213-217):
`if not <attr>: self._populate()` then `return <attr>` — the guard is Python
truthiness of the current attribute, and the value returned is the attribute
AFTER any population. -/
def lazyRead (proj : ActCache → PyVal) (w : ActWorld) (c : ActCache) :
    AccessResult :=
  if (proj c).truthy then ⟨none, proj c, c, 0, 0⟩
  else
    let p := Activity_populate w c
    match p.err with
    | some e => ⟨some e, .vNone, p.cache, p.nDetails, p.nDatetime⟩
    | none => ⟨none, proj p.cache, p.cache, p.nDetails, p.nDatetime⟩

/-- The `calories` property (lines 168-172). -/
def Activity_calories (w : ActWorld) (c : ActCache) : AccessResult :=
  lazyRead (fun c => c.statsCalories) w c

/-- The `elevation` property (lines 174-178). -/
def Activity_elevation (w : ActWorld) (c : ActCache) : AccessResult :=
  lazyRead (fun c => c.statsElevation) w c

/-- The `pace` property (lines 180-184). -/
def Activity_pace (w : ActWorld) (c : ActCache) : AccessResult :=
  lazyRead (fun c => c.statsPace) w c

/-- The `speed` property (lines 186-190). -/
def Activity_speed (w : ActWorld) (c : ActCache) : AccessResult :=
  lazyRead (fun c => c.statsSpeed) w c

/-- The `datetime` property (lines 213-217). -/
def Activity_datetime (w : ActWorld) (c : ActCache) : AccessResult :=
  lazyRead (fun c => c.dt) w c

/-- Names of the five lazy properties, to quantify over them. -/
inductive LazyField where
  | calories
  | elevation
  | pace
  | speed
  | datetime
deriving DecidableEq

/-- The cache attribute backing each property. -/
def fieldProj : LazyField → ActCache → PyVal
  | .calories => fun c => c.statsCalories
  | .elevation => fun c => c.statsElevation
  | .pace => fun c => c.statsPace
  | .speed => fun c => c.statsSpeed
  | .datetime => fun c => c.dt

/-- Read the named property. -/
def accessField : LazyField → ActWorld → ActCache → AccessResult
  | .calories => Activity_calories
  | .elevation => Activity_elevation
  | .pace => Activity_pace
  | .speed => Activity_speed
  | .datetime => Activity_datetime

/- ###  Concrete instances used by the verification below  ### -/

/-- The subtitle text fragment of the spec's worked example. -/
def subtitleExample : String := "Mon Jan 05 14:30:00 UTC 2024 - 3.1 mi"

/-- The timestamp the worked example parses to. -/
def dtExample : DT := ⟨2024, 1, 5, 14, 30, 0⟩

/-- A detail blob with all four statistics present and truthy. -/
def detailGood : PyDict :=
  .cons "statsCalories" (.vInt 120) (.cons "statsElevation" (.vInt 5)
    (.cons "statsPace" (.vStr "5:30") (.cons "statsSpeed" (.vInt 10) .nil)))

/-- A detail blob whose calorie count is the legitimate value `0`. -/
def detailZeroCal : PyDict :=
  .cons "statsCalories" (.vInt 0) (.cons "statsElevation" (.vInt 5)
    (.cons "statsPace" (.vStr "5:30") (.cons "statsSpeed" (.vInt 10) .nil)))

/-- Activity oracle: detail endpoint and activity page both healthy. -/
def actWorldGood : ActWorld :=
  ⟨some (some (.vDict detailGood)), .ok "u1", some (some [subtitleExample])⟩

/-- Activity oracle: healthy, but the activity burned zero calories. -/
def actWorldZeroCal : ActWorld :=
  ⟨some (some (.vDict detailZeroCal)), .ok "u1", some (some [subtitleExample])⟩

/-- Activity oracle: the detail endpoint answers with valid JSON that is a
list, not an object. -/
def actWorldNonDict : ActWorld :=
  ⟨some (some (.vList .nil)), .ok "u1", some (some [subtitleExample])⟩

/-- Activity oracle: transport failure on the detail endpoint. -/
def actWorldDetailDown : ActWorld :=
  ⟨none, .ok "u1", some (some [subtitleExample])⟩

/-- Home page with one well-formed profile link. -/
def homeGoodWorld : HomeWorld := ⟨some ["/user/alice/profile"]⟩

/-- Home-page transport failure. -/
def homeDownWorld : HomeWorld := ⟨none⟩

/-- Home page whose markup has no link matching the profile pattern. -/
def homeNoMatchWorld : HomeWorld := ⟨some ["/home", "/settings"]⟩

/-- Home page whose matching link has no third path segment. -/
def homeShortHrefWorld : HomeWorld := ⟨some ["1/profile"]⟩

/-- Home page whose matching link's third path segment is the empty string
(the href matches the pattern through its `0/profile` substring). -/
def homeEmptySegWorld : HomeWorld := ⟨some ["ab/cd//0/profile"]⟩

/-- Listing body: the `activities` mapping is non-empty but holds an empty
list for February 2024. -/
def listingEmptyFeb : PyVal :=
  .vDict (.cons "activities"
    (.vDict (.cons "2024" (.vDict (.cons "Feb" (.vList .nil) .nil)) .nil))
    .nil)

/-- A first listing entry with all summary keys present. -/
def entryOne : PyDict :=
  .cons "username" (.vStr "alice") (.cons "distance" (.vInt 5)
    (.cons "activity_id" (.vInt 11) (.cons "distanceUnits" (.vStr "km")
      (.cons "elapsedTime" (.vStr "25:00") (.cons "live" (.vBool false)
        (.cons "mainText" (.vStr "run one") (.cons "type" (.vStr "Running")
          .nil)))))))

/-- A second listing entry with some summary keys missing. -/
def entryTwo : PyDict :=
  .cons "username" (.vStr "alice") (.cons "distance" (.vInt 3)
    (.cons "activity_id" (.vInt 12) .nil))

/-- The two February entries, in server order. -/
def febTwoList : PyList := .cons (.vDict entryOne) (.cons (.vDict entryTwo) .nil)

/-- The per-month mapping of the two-entry listing. -/
def byYearTwoFeb : PyVal := .vDict (.cons "Feb" (.vList febTwoList) .nil)

/-- The `activities` value of the two-entry listing. -/
def actsTwoFeb : PyVal := .vDict (.cons "2024" byYearTwoFeb .nil)

/-- Listing body holding the two entries for February 2024, in order. -/
def listingTwoFeb : PyVal := .vDict (.cons "activities" actsTwoFeb .nil)

/-- The record built from the first entry. -/
def summaryOne : ActivitySummary :=
  ⟨.vStr "alice", .vInt 5, .vInt 11, .vStr "km", .vStr "25:00", .vBool false,
   .vStr "run one", .vStr "Running"⟩

/-- The record built from the second entry (missing keys surface as `None`). -/
def summaryTwo : ActivitySummary :=
  ⟨.vStr "alice", .vInt 3, .vInt 12, .vNone, .vNone, .vNone, .vNone, .vNone⟩

/-- Listing body whose top-level `activities` mapping is itself empty. -/
def listingNoActs : PyVal := .vDict (.cons "activities" (.vDict .nil) .nil)

/-- Month oracle for the empty-February listing. -/
def monthEmptyFebWorld : MonthWorld := ⟨homeGoodWorld, some (some listingEmptyFeb)⟩

/-- Month oracle for the two-entry February listing. -/
def monthTwoFebWorld : MonthWorld := ⟨homeGoodWorld, some (some listingTwoFeb)⟩

/-- Month oracle for the empty `activities` mapping. -/
def monthNoActsWorld : MonthWorld := ⟨homeGoodWorld, some (some listingNoActs)⟩

/-- Month oracle whose home page is unreachable. -/
def monthHomeDownWorld : MonthWorld := ⟨homeDownWorld, some (some listingTwoFeb)⟩

/-- Month oracle whose home page yields only a too-short profile link. -/
def monthShortHrefWorld : MonthWorld := ⟨homeShortHrefWorld, some (some listingTwoFeb)⟩

/-- Login oracle: transport failure on the GET of the login page. -/
def authGetDownWorld : AuthWorld := ⟨none, fun _ => none⟩

/-- Login oracle: login page healthy, transport failure on the POST. -/
def authPostDownWorld : AuthWorld := ⟨some [("csrf", "tok")], fun _ => none⟩

/-- Login oracle: POST answered, `checker` cookie set with an empty value. -/
def authEmptyCheckerWorld : AuthWorld :=
  ⟨some [("csrf", "tok")], fun _ => some [("checker", "")]⟩

/-- Login oracle: POST answered, no `checker` cookie in the response. -/
def authNoCheckerWorld : AuthWorld :=
  ⟨some [("csrf", "tok")], fun _ => some [("other", "1")]⟩

/-- Login oracle: POST answered, `checker` cookie set with a real value. -/
def authOkWorld : AuthWorld :=
  ⟨some [("csrf", "tok")], fun _ => some [("checker", "ok")]⟩

/- ###  Helper lemmas  ### -/

/-- The only exception `Activity.__init__` can raise in our model is the
`AttributeError` of calling `.get` on a non-dict entry. -/
theorem Activity_init_error_eq (info : PyVal) (e : RKErr)
    (h : Activity_init info = .error e) : e = .pyAttributeError := by
  cases info <;> simp [Activity_init] at h <;> exact h.symm

/-- Exceptions escaping the record-construction loop come from
`Activity.__init__`. -/
theorem buildActivities_error_eq (l : List PyVal) (e : RKErr)
    (h : buildActivities l = .error e) : e = .pyAttributeError := by
  induction l with
  | nil => simp [buildActivities] at h
  | cons a rest ih =>
    simp only [buildActivities] at h
    cases ha : Activity_init a with
    | error er =>
      rw [ha] at h
      cases h
      exact Activity_init_error_eq a e ha
    | ok s =>
      rw [ha] at h
      cases hr : buildActivities rest with
      | error er =>
        rw [hr] at h
        cases h
        exact ih hr
      | ok ss => rw [hr] at h; cases h

/-- A successful construction pass yields one record per entry. -/
theorem buildActivities_ok_length (l : List PyVal) (ss : List ActivitySummary)
    (h : buildActivities l = .ok ss) : ss.length = l.length := by
  induction l generalizing ss with
  | nil => simp [buildActivities] at h; simp [← h]
  | cons a rest ih =>
    simp only [buildActivities] at h
    cases ha : Activity_init a with
    | error er => rw [ha] at h; cases h
    | ok s =>
      rw [ha] at h
      cases hr : buildActivities rest with
      | error er => rw [hr] at h; cases h
      | ok tail =>
        rw [hr] at h
        cases h
        simp [ih tail hr]

/-- The i-th constructed record comes from the i-th entry. -/
theorem buildActivities_ok_get (l : List PyVal) (ss : List ActivitySummary)
    (h : buildActivities l = .ok ss) (i : Nat) (hi : i < l.length)
    (hi2 : i < ss.length) :
    Activity_init (l.get ⟨i, hi⟩) = .ok (ss.get ⟨i, hi2⟩) := by
  induction l generalizing ss i with
  | nil => simp at hi
  | cons a rest ih =>
    simp only [buildActivities] at h
    cases ha : Activity_init a with
    | error er => rw [ha] at h; cases h
    | ok s =>
      rw [ha] at h
      cases hr : buildActivities rest with
      | error er => rw [hr] at h; cases h
      | ok tail =>
        rw [hr] at h
        cases h
        cases i with
        | zero => simpa using ha
        | succ j =>
          have h1 : j < rest.length := by simpa using hi
          have h2 : j < tail.length := by simpa using hi2
          simpa using ih tail hr j h1 h2

/-- Subscripting raises only `KeyError` or `TypeError`. -/
theorem pyIndex_error_cases (v : PyVal) (key : String) (e : RKErr)
    (h : pyIndex v key = .error e) : e = .pyKeyError ∨ e = .pyTypeError := by
  cases v <;> simp [pyIndex] at h <;> try (exact Or.inr h.symm)
  case vDict xs =>
    cases hl : xs.lookup key with
    | none => rw [hl] at h; exact Or.inl (by cases h; rfl)
    | some w => rw [hl] at h; cases h

/-- Iteration raises only `TypeError`. -/
theorem pyIter_error_cases (v : PyVal) (e : RKErr)
    (h : pyIter v = .error e) : e = .pyTypeError := by
  cases v <;> simp [pyIter] at h <;> exact h.symm

/-- Dispatch of the five properties through their shared body shape. -/
theorem accessField_eq_lazyRead (f : LazyField) :
    accessField f = lazyRead (fieldProj f) := by
  cases f <;> rfl

/-- Every lazy attribute of a fresh record is `None`. -/
theorem fieldProj_fresh (f : LazyField) : fieldProj f freshCache = .vNone := by
  cases f <;> rfl

/-- First statement of `_populate`: a failing detail fetch escapes before any
assignment (one detail call, no datetime call). -/
theorem Activity_populate_details_error (w : ActWorld) (c : ActCache) (e : RKErr)
    (h : get_activity_details w = .error e) :
    Activity_populate w c = ⟨some e, c, 1, 0⟩ := by
  simp [Activity_populate, h]

/-- Second statement of `_populate`: a failing datetime fetch escapes while
evaluating the right-hand side, before `__datetime` is assigned. -/
theorem Activity_populate_datetime_error (w : ActWorld) (c : ActCache)
    (d : PyVal) (e : RKErr) (hd : get_activity_details w = .ok d)
    (ht : get_activity_datetime w = .error e) :
    Activity_populate w c = ⟨some e, c, 1, 1⟩ := by
  simp [Activity_populate, hd, ht]

/-- Successful `_populate` on a dict-shaped detail blob: all five attributes
are assigned in one pass. -/
theorem Activity_populate_ok (w : ActWorld) (c : ActCache) (xs : PyDict)
    (t : DT) (hd : get_activity_details w = .ok (.vDict xs))
    (ht : get_activity_datetime w = .ok t) :
    Activity_populate w c =
      ⟨none, ⟨pyGetD xs "statsCalories", pyGetD xs "statsElevation",
              pyGetD xs "statsPace", pyGetD xs "statsSpeed", .vDatetime t⟩,
       1, 1⟩ := by
  simp [Activity_populate, hd, ht]

/- ###  Claim theorems  ### -/

/-- C3 counterexample: with the login-page GET failing at the transport
level, construction escapes with the raw `requests` exception (line 50 is
not wrapped), not with `EndpointConnectionError` as the claim states. -/
theorem login_get_failure_counterexample :
    authenticate "user" "pw" authGetDownWorld = .error .rawRequestsError ∧
    authenticate "user" "pw" authGetDownWorld ≠ .error .endpointConnectionError := by
  constructor
  · rfl
  · intro h
    simp [authenticate, get_hidden_elements, authGetDownWorld] at h

/-- C3 (amended): during construction, a transport failure on the login POST
raises `EndpointConnectionError`; a transport failure on the GET of the
login page propagates as the raw transport exception, unwrapped. -/
theorem authenticate_transport_errors (email password : String) (w : AuthWorld)
    (hidden : List (String × String)) :
    (w.loginGet = none →
      authenticate email password w = .error .rawRequestsError) ∧
    (w.loginGet = some hidden →
      w.loginPost (dictSet (dictSet hidden "email" email) "password" password)
        = none →
      authenticate email password w = .error .endpointConnectionError) := by
  constructor
  · intro h
    simp [authenticate, get_hidden_elements, h]
  · intro h hp
    simp [authenticate, get_hidden_elements, h, hp]

/-- C3 witness: both transport-failure branches at concrete inputs. -/
theorem authenticate_transport_errors_witness :
    authenticate "user" "pw" authGetDownWorld = .error .rawRequestsError ∧
    authenticate "user" "pw" authPostDownWorld = .error .endpointConnectionError :=
  ⟨(authenticate_transport_errors "user" "pw" authGetDownWorld []).1 rfl,
   (authenticate_transport_errors "user" "pw" authPostDownWorld
     [("csrf", "tok")]).2 rfl rfl⟩

/-- C7 counterexample: the POST response sets the `checker` cookie, but with
an empty value; the falsy test at line 39 rejects it, so construction fails
with `InvalidAuhentication` although the cookie is present. -/
theorem empty_checker_cookie_counterexample :
    lookupPair [("checker", "")] "checker" = some "" ∧
    authenticate "user" "pw" authEmptyCheckerWorld = .error .invalidAuhentication := by
  constructor
  · rfl
  · rfl

/-- C7 (amended): with both requests answered, construction succeeds exactly
when the POST response carries a `checker` cookie with a non-empty value;
an absent cookie, or one set to the empty string, fails with
`InvalidAuhentication`. -/
theorem authenticate_cookie_criterion (email password : String) (w : AuthWorld)
    (hidden cookies : List (String × String))
    (hget : w.loginGet = some hidden)
    (hpost : w.loginPost
      (dictSet (dictSet hidden "email" email) "password" password)
        = some cookies) :
    (authenticate email password w = .ok () ↔
      ((lookupPair cookies "checker").getD "").isEmpty = false) ∧
    (((lookupPair cookies "checker").getD "").isEmpty = true →
      authenticate email password w = .error .invalidAuhentication) := by
  constructor
  · cases hc : ((lookupPair cookies "checker").getD "").isEmpty
    · simp [authenticate, get_hidden_elements, hget, hpost, hc]
    · simp [authenticate, get_hidden_elements, hget, hpost, hc]
  · intro hc
    simp [authenticate, get_hidden_elements, hget, hpost, hc]

/-- C7 witness: a real `checker` value logs in; a response without the cookie
is rejected. -/
theorem authenticate_cookie_criterion_witness :
    authenticate "user" "pw" authOkWorld = .ok () ∧
    authenticate "user" "pw" authNoCheckerWorld = .error .invalidAuhentication :=
  ⟨((authenticate_cookie_criterion "user" "pw" authOkWorld [("csrf", "tok")]
      [("checker", "ok")] rfl rfl).1).mpr (by decide),
   (authenticate_cookie_criterion "user" "pw" authNoCheckerWorld [("csrf", "tok")]
      [("other", "1")] rfl rfl).2 (by decide)⟩

/-- C5 counterexample: a home page with no link matching the profile pattern
makes `soup.find` return `None`; the attribute access on `None` raises
`AttributeError`, which the `except IndexError` clause does not catch, so
the accessor does NOT raise `ProfileNotFound` there. -/
theorem profile_no_match_counterexample :
    profile_username homeNoMatchWorld "" = ⟨some .pyAttributeError, "", "", 1⟩ ∧
    (profile_username homeNoMatchWorld "").err ≠ some .profileNotFound := by
  constructor
  · rfl
  · decide

/-- C5 (amended): on a first read with the home page fetched, a matched link
whose path lacks a third segment raises `ProfileNotFound`; when no link
matches the pattern, an uncaught `AttributeError` escapes instead. -/
theorem profile_username_failures (w : HomeWorld) (anchors : List String)
    (hget : w.homeGet = some anchors) :
    (anchors.find? matchesProfilePattern = none →
      profile_username w "" = ⟨some .pyAttributeError, "", "", 1⟩) ∧
    (∀ href, anchors.find? matchesProfilePattern = some href →
      (pySplit '/' href)[2]? = none →
      profile_username w "" = ⟨some .profileNotFound, "", "", 1⟩) := by
  constructor
  · intro h
    simp [profile_username, hget, h]
    decide
  · intro href h h2
    simp [profile_username, hget, h, h2]
    decide

/-- C5 witness: both failure branches at concrete home pages. -/
theorem profile_username_failures_witness :
    profile_username homeNoMatchWorld "" = ⟨some .pyAttributeError, "", "", 1⟩ ∧
    profile_username homeShortHrefWorld "" = ⟨some .profileNotFound, "", "", 1⟩ :=
  ⟨(profile_username_failures homeNoMatchWorld ["/home", "/settings"] rfl).1
     (by decide),
   (profile_username_failures homeShortHrefWorld ["1/profile"] rfl).2
     "1/profile" (by decide) (by decide)⟩

/-- C6 counterexample: a matched link whose third path segment is the empty
string resolves successfully to `""`; the truthiness guard then re-fetches
the home page on every later read, so two reads issue two network requests. -/
theorem profile_empty_id_refetch_counterexample :
    (profile_username homeEmptySegWorld "").err = none ∧
    (profile_username homeEmptySegWorld "").nRequests = 1 ∧
    (profile_username homeEmptySegWorld
      (profile_username homeEmptySegWorld "").cached).nRequests = 1 := by
  decide

/-- C6 (amended): once a read has resolved and cached a NON-EMPTY identifier,
every later read—under any network conditions—returns the same cached string
with zero network requests; a read that resolved the empty string leaves the
cache falsy and later reads fetch again. -/
theorem profile_username_single_fetch (w w2 : HomeWorld) (cached : String)
    (herr : (profile_username w cached).err = none)
    (hval : (profile_username w cached).val.isEmpty = false) :
    profile_username w2 (profile_username w cached).cached =
      ⟨none, (profile_username w cached).val,
       (profile_username w cached).cached, 0⟩ := by
  cases hce : cached.isEmpty with
  | false =>
    have h1 : profile_username w cached = ⟨none, cached, cached, 0⟩ := by
      simp [profile_username, hce]
    rw [h1]
    simp [profile_username, hce]
  | true =>
    cases hhome : w.homeGet with
    | none => simp [profile_username, hce, hhome] at herr
    | some anchors =>
      cases hfind : anchors.find? matchesProfilePattern with
      | none => simp [profile_username, hce, hhome, hfind] at herr
      | some href =>
        cases hseg : (pySplit '/' href)[2]? with
        | none => simp [profile_username, hce, hhome, hfind, hseg] at herr
        | some seg =>
          have h1 : profile_username w cached = ⟨none, seg, seg, 1⟩ := by
            simp [profile_username, hce, hhome, hfind, hseg]
          rw [h1] at hval ⊢
          simp only at hval
          simp [profile_username, hval]

/-- C6 witness: after resolving `alice`, a second read succeeds with no
network request even against an unreachable home page. -/
theorem profile_username_single_fetch_witness :
    profile_username homeDownWorld (profile_username homeGoodWorld "").cached =
      ⟨none, "alice", "alice", 0⟩ := by
  have h := profile_username_single_fetch homeGoodWorld homeDownWorld ""
    (by decide) (by decide)
  exact h.trans (by decide)

/-- C4 counterexample: the listing parses with the expected top-level key and
holds ZERO activities for February 2024 (an empty list under the year/month
pair), yet `get_activities_month` raises nothing and returns the empty
sequence — the falsy test at line 105 sees the non-empty outer mapping. -/
theorem empty_month_counterexample :
    (get_activities_month monthEmptyFebWorld "u1" "Feb" "2024").err = none ∧
    (get_activities_month monthEmptyFebWorld "u1" "Feb" "2024").activities = [] := by
  decide

/-- C4 (amended): `NoActivityInMonth` is raised exactly when the parsed
listing's whole `activities` value is empty (and that test does run before
the year/month indexing); when the value is non-empty but maps the requested
year and month to an empty list, the call instead returns the empty
sequence; and when the non-empty `activities` dict lacks the requested year
key, or its year entry lacks the requested month key, the unguarded
subscript at line 108 lets the raw `KeyError` escape. -/
theorem no_activity_in_month_iff (w : MonthWorld) (cached month year : String)
    (body : Option PyVal) (acts : PyVal)
    (hprof : (profile_username w.home cached).err = none)
    (hresp : w.listingResp = some body)
    (hacts : extractActivities body = .ok acts) :
    ((get_activities_month w cached month year).err = some .noActivityInMonth ↔
      acts.truthy = false) ∧
    (∀ byYear, acts.truthy = true → pyIndex acts year = .ok byYear →
      pyIndex byYear month = .ok (.vList .nil) →
      (get_activities_month w cached month year).err = none ∧
      (get_activities_month w cached month year).activities = []) ∧
    (∀ xs, acts = .vDict xs → acts.truthy = true → xs.lookup year = none →
      (get_activities_month w cached month year).err = some .pyKeyError) ∧
    (∀ xs ys, acts = .vDict xs → acts.truthy = true →
      xs.lookup year = some (.vDict ys) → ys.lookup month = none →
      (get_activities_month w cached month year).err = some .pyKeyError) := by
  constructor
  · constructor
    · intro h
      cases htr : acts.truthy with
      | false => rfl
      | true =>
        exfalso
        cases hy : pyIndex acts year with
        | error e =>
          have hr : (get_activities_month w cached month year).err = some e := by
            simp [get_activities_month, hprof, hresp, hacts, htr, hy]
          rw [hr] at h
          obtain rfl := Option.some.inj h
          rcases pyIndex_error_cases acts year _ hy with h1 | h1 <;> cases h1
        | ok byYear =>
          cases hm : pyIndex byYear month with
          | error e =>
            have hr : (get_activities_month w cached month year).err = some e := by
              simp [get_activities_month, hprof, hresp, hacts, htr, hy, hm]
            rw [hr] at h
            obtain rfl := Option.some.inj h
            rcases pyIndex_error_cases byYear month _ hm with h1 | h1 <;> cases h1
          | ok entries =>
            cases hit : pyIter entries with
            | error e =>
              have hr : (get_activities_month w cached month year).err = some e := by
                simp [get_activities_month, hprof, hresp, hacts, htr, hy, hm, hit]
              rw [hr] at h
              obtain rfl := Option.some.inj h
              cases pyIter_error_cases entries _ hit
            | ok l =>
              cases hb : buildActivities l with
              | error e =>
                have hr : (get_activities_month w cached month year).err = some e := by
                  simp [get_activities_month, hprof, hresp, hacts, htr, hy, hm,
                        hit, hb]
                rw [hr] at h
                obtain rfl := Option.some.inj h
                cases buildActivities_error_eq l _ hb
              | ok ss =>
                have hr : (get_activities_month w cached month year).err = none := by
                  simp [get_activities_month, hprof, hresp, hacts, htr, hy, hm,
                        hit, hb]
                rw [hr] at h
                cases h
    · intro htr
      simp [get_activities_month, hprof, hresp, hacts, htr]
  · refine ⟨?_, ?_, ?_⟩
    · intro byYear htr hy hm
      constructor <;>
        simp [get_activities_month, hprof, hresp, hacts, htr, hy, hm, pyIter,
              PyList.toList, buildActivities]
    · intro xs hxs htr hlook
      have hy : pyIndex acts year = .error .pyKeyError := by
        simp [pyIndex, hxs, hlook]
      simp [get_activities_month, hprof, hresp, hacts, htr, hy]
    · intro xs ys hxs htr hy1 hlook
      have hy : pyIndex acts year = .ok (.vDict ys) := by
        simp [pyIndex, hxs, hy1]
      have hm2 : pyIndex (.vDict ys) month = .error .pyKeyError := by
        simp [pyIndex, hlook]
      simp [get_activities_month, hprof, hresp, hacts, htr, hy, hm2]

/-- C4 witness: an entirely empty `activities` mapping does raise
`NoActivityInMonth`; the empty-list month returns the empty sequence; and
requesting an absent year (2023) or an absent month (Mar) of the non-empty
two-entry listing lets the raw `KeyError` escape. -/
theorem no_activity_in_month_iff_witness :
    (get_activities_month monthNoActsWorld "u1" "Feb" "2024").err =
      some .noActivityInMonth ∧
    (get_activities_month monthEmptyFebWorld "u1" "Feb" "2024").err = none ∧
    (get_activities_month monthEmptyFebWorld "u1" "Feb" "2024").activities = [] ∧
    (get_activities_month monthTwoFebWorld "u1" "Feb" "2023").err =
      some .pyKeyError ∧
    (get_activities_month monthTwoFebWorld "u1" "Mar" "2024").err =
      some .pyKeyError := by
  refine ⟨?_, ?_, ?_, ?_, ?_⟩
  · exact ((no_activity_in_month_iff monthNoActsWorld "u1" "Feb" "2024"
      (some listingNoActs) (.vDict .nil) (by decide) rfl rfl).1).mpr rfl
  · exact (no_activity_in_month_iff monthEmptyFebWorld "u1" "Feb" "2024"
      (some listingEmptyFeb) (.vDict (.cons "2024"
        (.vDict (.cons "Feb" (.vList .nil) .nil)) .nil))
      (by decide) rfl rfl).2.1 (.vDict (.cons "Feb" (.vList .nil) .nil))
      rfl rfl rfl |>.1
  · exact (no_activity_in_month_iff monthEmptyFebWorld "u1" "Feb" "2024"
      (some listingEmptyFeb) (.vDict (.cons "2024"
        (.vDict (.cons "Feb" (.vList .nil) .nil)) .nil))
      (by decide) rfl rfl).2.1 (.vDict (.cons "Feb" (.vList .nil) .nil))
      rfl rfl rfl |>.2
  · exact (no_activity_in_month_iff monthTwoFebWorld "u1" "Feb" "2023"
      (some listingTwoFeb) actsTwoFeb (by decide) rfl rfl).2.2.1
      (.cons "2024" byYearTwoFeb .nil) rfl rfl (by decide)
  · exact (no_activity_in_month_iff monthTwoFebWorld "u1" "Mar" "2024"
      (some listingTwoFeb) actsTwoFeb (by decide) rfl rfl).2.2.2
      (.cons "2024" byYearTwoFeb .nil) (.cons "Feb" (.vList febTwoList) .nil)
      rfl rfl (by decide) (by decide)

/-- C10: with the profile identifier still unresolved, `get_activities_month`
resolves it while building the payload (line 92); any exception of that read
propagates unchanged, with zero listing requests issued — so no
listing-specific outcome can precede it. -/
theorem profile_error_before_listing (w : MonthWorld) (month year : String)
    (e : RKErr) (h : (profile_username w.home "").err = some e) :
    get_activities_month w "" month year =
      ⟨some e, [], (profile_username w.home "").cached,
       (profile_username w.home "").nRequests, 0⟩ := by
  simp [get_activities_month, h]

/-- C10 witness: an unreachable home page surfaces
`EndpointConnectionError`, and a too-short profile link surfaces
`ProfileNotFound`, both with zero listing requests. -/
theorem profile_error_before_listing_witness :
    get_activities_month monthHomeDownWorld "" "Feb" "2024" =
      ⟨some .endpointConnectionError, [], "", 1, 0⟩ ∧
    get_activities_month monthShortHrefWorld "" "Feb" "2024" =
      ⟨some .profileNotFound, [], "", 1, 0⟩ := by
  constructor
  · exact (profile_error_before_listing monthHomeDownWorld "Feb" "2024"
      .endpointConnectionError (by decide)).trans (by decide)
  · exact (profile_error_before_listing monthShortHrefWorld "Feb" "2024"
      .profileNotFound (by decide)).trans (by decide)

/-- C8: when the listing maps the requested year and month to a list of
entries and every record constructs, `get_activities_month` returns exactly
one record per entry, in the endpoint's order (the i-th record is built from
the i-th entry), and each record's summary fields are exactly the
`info.get(...)` projections of its entry. -/
theorem activities_month_order_and_fields (w : MonthWorld)
    (cached month year : String) (body acts byYear : PyVal) (entries : PyList)
    (summaries : List ActivitySummary)
    (hprof : (profile_username w.home cached).err = none)
    (hresp : w.listingResp = some (some body))
    (hacts : extractActivities (some body) = .ok acts)
    (htr : acts.truthy = true)
    (hy : pyIndex acts year = .ok byYear)
    (hm : pyIndex byYear month = .ok (.vList entries))
    (hb : buildActivities entries.toList = .ok summaries) :
    (get_activities_month w cached month year).err = none ∧
    (get_activities_month w cached month year).activities = summaries ∧
    summaries.length = entries.toList.length ∧
    (∀ (i : Nat) (hi : i < entries.toList.length) (hi2 : i < summaries.length),
      Activity_init (entries.toList.get ⟨i, hi⟩) = .ok (summaries.get ⟨i, hi2⟩)) ∧
    (∀ xs : PyDict, Activity_init (.vDict xs) =
      .ok ⟨pyGetD xs "username", pyGetD xs "distance", pyGetD xs "activity_id",
           pyGetD xs "distanceUnits", pyGetD xs "elapsedTime", pyGetD xs "live",
           pyGetD xs "mainText", pyGetD xs "type"⟩) := by
  refine ⟨?_, ?_, buildActivities_ok_length _ _ hb,
    fun i hi hi2 => buildActivities_ok_get _ _ hb i hi hi2, fun xs => rfl⟩
  · simp [get_activities_month, hprof, hresp, hacts, htr, hy, hm, pyIter, hb]
  · simp [get_activities_month, hprof, hresp, hacts, htr, hy, hm, pyIter, hb]

/-- C8 witness: the two-entry February listing yields the two records in
server order, each with the entry's supplied fields (missing keys `None`). -/
theorem activities_month_order_and_fields_witness :
    (get_activities_month monthTwoFebWorld "u1" "Feb" "2024").err = none ∧
    (get_activities_month monthTwoFebWorld "u1" "Feb" "2024").activities =
      [summaryOne, summaryTwo] := by
  have h := activities_month_order_and_fields monthTwoFebWorld "u1" "Feb" "2024"
    listingTwoFeb actsTwoFeb byYearTwoFeb febTwoList [summaryOne, summaryTwo]
    (by decide) rfl rfl rfl rfl rfl rfl
  exact ⟨h.1, h.2.1⟩

/-- C2 counterexample: the detail endpoint answers with VALID JSON that is a
list; `_populate` then fails (uncaught `AttributeError` from `.get` on a
list) — but only after line 142 already assigned `__datetime`, so the record
is left partially populated, not as it was before the call. -/
theorem populate_partial_counterexample :
    (Activity_populate actWorldNonDict freshCache).err = some .pyAttributeError ∧
    (Activity_populate actWorldNonDict freshCache).cache.dt = .vDatetime dtExample ∧
    (Activity_populate actWorldNonDict freshCache).cache ≠ freshCache := by
  decide

/-- C2 (amended): `_populate` is all-or-nothing for every fetch-level
failure — if either `get_activity_details` or `get_activity_datetime` raises
(connection error, `InvalidActivityId`, or a datetime-page parsing error),
all five cache attributes keep their prior values and the error propagates —
and a successful call on a dict-shaped detail blob assigns all five
together; only a detail body that is valid JSON of non-object shape escapes
this (see the counterexample), where the timestamp is assigned and the four
statistics are not. -/
theorem populate_atomic_amended (w : ActWorld) (c : ActCache) :
    (∀ e, get_activity_details w = .error e →
      Activity_populate w c = ⟨some e, c, 1, 0⟩) ∧
    (∀ d e, get_activity_details w = .ok d →
      get_activity_datetime w = .error e →
      Activity_populate w c = ⟨some e, c, 1, 1⟩) ∧
    (∀ xs t, get_activity_details w = .ok (.vDict xs) →
      get_activity_datetime w = .ok t →
      Activity_populate w c =
        ⟨none, ⟨pyGetD xs "statsCalories", pyGetD xs "statsElevation",
                pyGetD xs "statsPace", pyGetD xs "statsSpeed",
                .vDatetime t⟩, 1, 1⟩) :=
  ⟨fun e h => Activity_populate_details_error w c e h,
   fun d e h h2 => Activity_populate_datetime_error w c d e h h2,
   fun xs t h h2 => Activity_populate_ok w c xs t h h2⟩

/-- C2 witness: a transport failure on the detail fetch leaves a fresh record
untouched with the error propagated; a healthy pass fills all five fields. -/
theorem populate_atomic_amended_witness :
    Activity_populate actWorldDetailDown freshCache =
      ⟨some .endpointConnectionError, freshCache, 1, 0⟩ ∧
    Activity_populate actWorldGood freshCache =
      ⟨none, ⟨.vInt 120, .vInt 5, .vStr "5:30", .vInt 10, .vDatetime dtExample⟩,
       1, 1⟩ := by
  constructor
  · exact (populate_atomic_amended actWorldDetailDown freshCache).1
      .endpointConnectionError rfl
  · exact ((populate_atomic_amended actWorldGood freshCache).2.2 detailGood
      dtExample rfl rfl).trans (by decide)

/-- C1 counterexample: the detail endpoint legitimately returns zero
calories; the first read of `calories` succeeds (one detail fetch, one
datetime fetch), yet a second read of `calories` fetches again — the falsy
guard at line 170 cannot tell a cached `0` from unset. -/
theorem calories_zero_refetch_counterexample :
    (Activity_calories actWorldZeroCal freshCache).err = none ∧
    (Activity_calories actWorldZeroCal freshCache).val = .vInt 0 ∧
    (Activity_calories actWorldZeroCal
      (Activity_calories actWorldZeroCal freshCache).cache).nDetails = 1 ∧
    (Activity_calories actWorldZeroCal
      (Activity_calories actWorldZeroCal freshCache).cache).nDatetime = 1 := by
  decide

/-- C1 (amended): on a fresh record with both endpoints healthy, the first
access to any of the five lazy properties triggers exactly one
`get_activity_details` call and one `get_activity_datetime` call and
succeeds; afterwards, a second access to any property whose cached value is
truthy (non-zero, non-empty) performs zero further fetches under any network
conditions — but a property whose fetched value is falsy re-fetches (see the
counterexample). -/
theorem lazy_fields_single_fetch (w w2 : ActWorld) (f g : LazyField)
    (xs : PyDict) (t : DT)
    (hd : get_activity_details w = .ok (.vDict xs))
    (ht : get_activity_datetime w = .ok t) :
    (accessField f w freshCache).err = none ∧
    (accessField f w freshCache).nDetails = 1 ∧
    (accessField f w freshCache).nDatetime = 1 ∧
    ((fieldProj g (accessField f w freshCache).cache).truthy = true →
      accessField g w2 (accessField f w freshCache).cache =
        ⟨none, fieldProj g (accessField f w freshCache).cache,
         (accessField f w freshCache).cache, 0, 0⟩) := by
  have hfresh : (fieldProj f freshCache).truthy = false := by
    rw [fieldProj_fresh]
    rfl
  have hpop := Activity_populate_ok w freshCache xs t hd ht
  have hacc : accessField f w freshCache =
      ⟨none,
       fieldProj f ⟨pyGetD xs "statsCalories", pyGetD xs "statsElevation",
         pyGetD xs "statsPace", pyGetD xs "statsSpeed", .vDatetime t⟩,
       ⟨pyGetD xs "statsCalories", pyGetD xs "statsElevation",
         pyGetD xs "statsPace", pyGetD xs "statsSpeed", .vDatetime t⟩,
       1, 1⟩ := by
    rw [accessField_eq_lazyRead]
    simp [lazyRead, hfresh, hpop]
  refine ⟨by rw [hacc], by rw [hacc], by rw [hacc], ?_⟩
  intro htr
  rw [accessField_eq_lazyRead g]
  rw [hacc] at htr ⊢
  simp only at htr ⊢
  simp [lazyRead, htr]

/-- C1 witness: first read of `calories` on a fresh record makes one call to
each fetcher; the populated `elevation` value is truthy, so reading it next
touches nothing — even with the detail endpoint down. -/
theorem lazy_fields_single_fetch_witness :
    (Activity_calories actWorldGood freshCache).err = none ∧
    (Activity_calories actWorldGood freshCache).nDetails = 1 ∧
    (Activity_calories actWorldGood freshCache).nDatetime = 1 ∧
    Activity_elevation actWorldDetailDown
      (Activity_calories actWorldGood freshCache).cache =
      ⟨none, .vInt 5, (Activity_calories actWorldGood freshCache).cache,
       0, 0⟩ := by
  have h := lazy_fields_single_fetch actWorldGood actWorldDetailDown
    .calories .elevation detailGood dtExample rfl rfl
  refine ⟨h.1, h.2.1, h.2.2.1, ?_⟩
  exact (h.2.2.2 (by decide)).trans (by decide)

/-- C9: with the subtitle element yielding the fragment
`Mon Jan 05 14:30:00 UTC 2024 - 3.1 mi`, the suffix after the delimiter is
stripped, the remainder parses under the fixed pattern, and the `datetime`
property returns the timestamp 2024-01-05 14:30:00. -/
theorem datetime_parse_example :
    get_activity_datetime actWorldGood = .ok dtExample ∧
    (Activity_datetime actWorldGood freshCache).err = none ∧
    (Activity_datetime actWorldGood freshCache).val = .vDatetime dtExample :=
  ⟨rfl, by decide, by decide⟩
